import Mathlib

/-!
Verification of the epicTreeGUI export/import pipeline.

The Python sources are shallowly embedded: Python runtime values become the
inductive type `PyVal`, Python dicts become association lists preserving
insertion order, and functions that can raise return `Except`.  The external
`json.loads` parser is a parameter `parse : String → Option PyVal` (parse
failure is `none`); the external HDF5 reader is modelled by oracles.
-/

set_option maxHeartbeats 1000000

/-- Model of a Python runtime value as it appears in this pipeline:
`None`, booleans, ints, floats (as rationals), strings, bytes, datetime-like
objects (anything with `strftime`, carrying its string rendering), any other
stringifiable object (carrying its `str()` rendering), lists, and dicts as
insertion-ordered association lists with string keys. -/
inductive PyVal where
  | none
  | bool (b : Bool)
  | int (n : Int)
  | float (q : Rat)
  | str (s : String)
  | bytes (bs : List Nat)
  | datetime (s : String)
  | other (s : String)
  | list (items : List PyVal)
  | dict (entries : List (String × PyVal))

/-- A Python dict: insertion-ordered association list with string keys. -/
abbrev PyDict := List (String × PyVal)

/-- Python truthiness (`bool(v)`) for the modelled values. -/
def pyTruthy : PyVal → Bool
  | .none => false
  | .bool b => b
  | .int n => n != 0
  | .float q => q != 0
  | .str s => s != ""
  | .bytes bs => !bs.isEmpty
  | .datetime _ => true
  | .other _ => true
  | .list l => !l.isEmpty
  | .dict d => !d.isEmpty

/-- Python `d.get(key)` / `d[key]` lookup: first (unique) binding of the key. -/
def dictGet : PyDict → String → Option PyVal
  | [], _ => Option.none
  | (k, v) :: rest, key => if k = key then some v else dictGet rest key

/-- Python `d.get(key, default)`: the default is used only when the key is
absent; a present `None` value is returned as is. -/
def dictGetD (d : PyDict) (key : String) (dflt : PyVal) : PyVal :=
  (dictGet d key).getD dflt

/-- Python `d[key] = v`: overwrite in place when the key exists (keeping its
position), append otherwise. -/
def dictSet : PyDict → String → PyVal → PyDict
  | [], key, v => [(key, v)]
  | (k, w) :: rest, key, v =>
      if k = key then (k, v) :: rest else (k, w) :: dictSet rest key v

/-- Python `d.update(e)`: set each binding of `e` into `d` in order. -/
def dictUpdate (d : PyDict) (e : PyDict) : PyDict :=
  e.foldl (fun acc kv => dictSet acc kv.1 kv.2) d

/-- Python `a or b` (returns `a` when truthy, else `b`). -/
def pyOr (a b : PyVal) : PyVal :=
  if pyTruthy a then a else b

/-- Source `field_mapper.sanitize_for_matlab`: `None` becomes an empty list,
an empty dict is preserved, everything else passes through unchanged. -/
def sanitize_for_matlab : PyVal → PyVal
  | .none => .list []
  | .dict [] => .dict []
  | v => v

/-- Key prefixing of `flatten_json_params`: `full_key = f"{pfx}_{key}"` when
the current prefix is truthy (non-empty), else the bare key. -/
def joinKey (pfx key : String) : String :=
  if pfx ≠ "" then pfx ++ "_" ++ key else key

/-- Loop body of `field_mapper.flatten_json_params` over `params_dict.items()`:
`result` is the accumulator dict; a dict value is flattened recursively under
the extended prefix and merged via `result.update(nested)` (the source's
recursive call `flatten_json_params(value, full_key)` reduces to this loop on
the sub-entries with a fresh accumulator, since the value is a dict); any
other value is stored as `result[full_key] = sanitize_for_matlab(value)`. -/
def flattenItems : List (String × PyVal) → String → PyDict → PyDict
  | [], _, result => result
  | (key, value) :: rest, pfx, result =>
      match value with
      | .dict d =>
          flattenItems rest pfx (dictUpdate result (flattenItems d (joinKey pfx key) []))
      | v => flattenItems rest pfx (dictSet result (joinKey pfx key) (sanitize_for_matlab v))
termination_by items _ _ => sizeOf items

/-- Source `field_mapper.flatten_json_params`: `None` gives `{}`; a string is
first parsed with `json.loads` (modelled by `parse`, `none` = parse failure,
which the source catches and turns into `{}`); a non-dict gives `{}`; a dict
is flattened by the item loop starting from an empty result. -/
def flatten_json_params (parse : String → Option PyVal) (v : PyVal) (pfx : String) : PyDict :=
  match v with
  | .none => []
  | .str s =>
      match parse s with
      | some (.dict d) => flattenItems d pfx []
      | _ => []
  | .dict d => flattenItems d pfx []
  | _ => []

mutual

/-- Source `field_mapper.deep_sanitize`: `None` becomes the empty string,
dicts and lists are sanitized recursively, datetime-like values and any other
non-(int/float/str/bool/bytes) value are stringified, scalars pass through. -/
def deep_sanitize : PyVal → PyVal
  | .none => .str ""
  | .dict es => .dict (deepSanitizeEntries es)
  | .list xs => .list (deepSanitizeList xs)
  | .datetime s => .str s
  | .other s => .str s
  | .bool b => .bool b
  | .int n => .int n
  | .float q => .float q
  | .str s => .str s
  | .bytes bs => .bytes bs

/-- Element-wise `deep_sanitize` over a Python list. -/
def deepSanitizeList : List PyVal → List PyVal
  | [] => []
  | x :: xs => deep_sanitize x :: deepSanitizeList xs

/-- Value-wise `deep_sanitize` over the entries of a Python dict. -/
def deepSanitizeEntries : List (String × PyVal) → List (String × PyVal)
  | [] => []
  | (k, v) :: es => (k, deep_sanitize v) :: deepSanitizeEntries es

end

mutual

/-- Model of Python `repr()` for the value shapes this pipeline feeds it
(datetime-like and other objects carry their string rendering directly). -/
def pyRepr : PyVal → String
  | .none => "None"
  | .bool b => if b then "True" else "False"
  | .int n => toString n
  | .float q => toString q
  | .str s => "\x27" ++ s ++ "\x27"
  | .bytes bs => "b\x27" ++ String.mk (bs.map Char.ofNat) ++ "\x27"
  | .datetime s => s
  | .other s => s
  | .list xs => "[" ++ String.intercalate ", " (pyReprList xs) ++ "]"
  | .dict es => "\x7b" ++ String.intercalate ", " (pyReprEntries es) ++ "\x7d"

/-- Element renderings of a Python list. -/
def pyReprList : List PyVal → List String
  | [] => []
  | x :: xs => pyRepr x :: pyReprList xs

/-- Entry renderings of a Python dict. -/
def pyReprEntries : List (String × PyVal) → List String
  | [] => []
  | (k, v) :: es => ("\x27" ++ k ++ "\x27: " ++ pyRepr v) :: pyReprEntries es

end

/-- Model of Python `str()`: identity on strings, `repr`-style rendering on
containers, canonical renderings on the remaining values. -/
def pyToString : PyVal → String
  | .str s => s
  | v => pyRepr v

/-- Python regex `\s` character class. -/
def isPySpace (c : Char) : Bool :=
  c == ' ' || c == '\t' || c == '\n' || c == '\r' || c == Char.ofNat 11 || c == Char.ofNat 12

/-- Numeric value of a digit run. -/
def digitsToNat (ds : List Char) : Nat :=
  ds.foldl (fun a c => 10 * a + (c.toNat - '0'.toNat)) 0

/-- Match the regex group `\d+(?:\.\d+)?` at the head of `cs` (head is a
digit): returns the matched value and the remaining characters.  The dot is
consumed only when followed by a further digit, as in the regex. -/
def matchNumber (cs : List Char) : Rat × List Char :=
  let p := cs.span Char.isDigit
  match p.2 with
  | '.' :: c :: more =>
      if c.isDigit then
        let q := (c :: more).span Char.isDigit
        ((digitsToNat p.1 : Rat) + (digitsToNat q.1 : Rat) / ((10 : Rat) ^ q.1.length), q.2)
      else ((digitsToNat p.1 : Rat), p.2)
  | _ => ((digitsToNat p.1 : Rat), p.2)

/-- Leftmost match of `\d+(?:\.\d+)?` in `cs` (the regex search scans to the
first digit), or `none` when the string has no digit. -/
def findNumber : List Char → Option (Rat × List Char)
  | [] => Option.none
  | c :: rest => if c.isDigit then some (matchNumber (c :: rest)) else findNumber rest

/-- Apply the optional `\s*(Hz|kHz|MHz)?` unit suffix: `kHz` scales by 1000,
`MHz` by 1e6, `Hz` or no unit leaves the value unchanged. -/
def applyUnit (v : Rat) (cs : List Char) : Rat :=
  let rest := cs.dropWhile isPySpace
  if rest.take 3 = ['k', 'H', 'z'] then v * 1000
  else if rest.take 3 = ['M', 'H', 'z'] then v * 1000000
  else v

/-- Source `field_mapper.parse_sample_rate`: `None` gives `0.0`; ints, floats
(and bools, which are ints in Python) pass through as floats; any other value
is stringified and searched with `(\d+(?:\.\d+)?)\s*(Hz|kHz|MHz)?`, yielding
`0.0` when no number occurs. -/
def parse_sample_rate (v : PyVal) : Rat :=
  match v with
  | .none => 0
  | .bool b => if b then 1 else 0
  | .int n => (n : Rat)
  | .float q => q
  | rate =>
      match findNumber (pyToString rate).data with
      | some r => applyUnit r.1 r.2
      | Option.none => 0

/-- Source `field_mapper.extract_experiment_fields`. -/
def extract_experiment_fields (obj_dict : PyDict) : PyDict :=
  [("id", dictGetD obj_dict "id" PyVal.none),
   ("h5_uuid", pyOr (dictGetD obj_dict "h5_uuid" PyVal.none) (.str "")),
   ("exp_name", dictGetD obj_dict "exp_name" (.str "")),
   ("is_mea", dictGetD obj_dict "is_mea" (.bool false)),
   ("label", pyOr (dictGetD obj_dict "label" PyVal.none) (.str "")),
   ("experimenter", pyOr (dictGetD obj_dict "experimenter" PyVal.none) (.str "")),
   ("rig", dictGetD obj_dict "rig" (.str "")),
   ("institution", dictGetD obj_dict "institution" (.str ""))]

/-- Source `field_mapper.extract_animal_fields`. -/
def extract_animal_fields (obj_dict : PyDict) : PyDict :=
  [("id", dictGetD obj_dict "id" PyVal.none),
   ("h5_uuid", pyOr (dictGetD obj_dict "h5_uuid" PyVal.none) (.str "")),
   ("species", pyOr (dictGetD obj_dict "species" PyVal.none) (.str "")),
   ("age", pyOr (dictGetD obj_dict "age" PyVal.none) (.str "")),
   ("sex", dictGetD obj_dict "sex" (.str ""))]

/-- Source `field_mapper.extract_preparation_fields`. -/
def extract_preparation_fields (obj_dict : PyDict) : PyDict :=
  [("id", dictGetD obj_dict "id" PyVal.none),
   ("h5_uuid", pyOr (dictGetD obj_dict "h5_uuid" PyVal.none) (.str "")),
   ("bath_solution", pyOr (dictGetD obj_dict "bath_solution" PyVal.none) (.str "")),
   ("region", pyOr (dictGetD obj_dict "region" PyVal.none) (.str ""))]

/-- Source `field_mapper.extract_cell_fields`. -/
def extract_cell_fields (obj_dict : PyDict) : PyDict :=
  [("id", dictGetD obj_dict "id" PyVal.none),
   ("h5_uuid", pyOr (dictGetD obj_dict "h5_uuid" PyVal.none) (.str "")),
   ("type", pyOr (dictGetD obj_dict "type" PyVal.none) (.str "")),
   ("label", pyOr (dictGetD obj_dict "label" PyVal.none) (.str ""))]

/-- Source `field_mapper.extract_epoch_group_fields`. -/
def extract_epoch_group_fields (obj_dict : PyDict) : PyDict :=
  [("id", dictGetD obj_dict "id" PyVal.none),
   ("h5_uuid", pyOr (dictGetD obj_dict "h5_uuid" PyVal.none) (.str "")),
   ("label", pyOr (dictGetD obj_dict "label" PyVal.none) (.str "")),
   ("protocol_name", pyOr (dictGetD obj_dict "protocol_name" PyVal.none) (.str "")),
   ("protocol_id", dictGetD obj_dict "protocol_id" (.int 0)),
   ("start_time", dictGetD obj_dict "start_time" (.str "")),
   ("end_time", dictGetD obj_dict "end_time" (.str ""))]

/-- Source `field_mapper.extract_epoch_block_fields`. -/
def extract_epoch_block_fields (obj_dict : PyDict) : PyDict :=
  [("id", dictGetD obj_dict "id" PyVal.none),
   ("h5_uuid", pyOr (dictGetD obj_dict "h5_uuid" PyVal.none) (.str "")),
   ("label", pyOr (dictGetD obj_dict "label" PyVal.none) (.str "")),
   ("protocol_name", pyOr (dictGetD obj_dict "protocol_name" PyVal.none) (.str "")),
   ("protocol_id", dictGetD obj_dict "protocol_id" (.int 0)),
   ("start_time", dictGetD obj_dict "start_time" (.str "")),
   ("end_time", dictGetD obj_dict "end_time" (.str ""))]

/-- Source `field_mapper.extract_epoch_fields`. -/
def extract_epoch_fields (obj_dict : PyDict) : PyDict :=
  [("id", dictGetD obj_dict "id" PyVal.none),
   ("h5_uuid", pyOr (dictGetD obj_dict "h5_uuid" PyVal.none) (.str "")),
   ("label", pyOr (dictGetD obj_dict "label" PyVal.none) (.str "")),
   ("start_time", dictGetD obj_dict "start_time" (.str "")),
   ("end_time", dictGetD obj_dict "end_time" (.str ""))]

/-- Source `field_mapper.build_response_struct`: response struct with empty
data for lazy loading. -/
def build_response_struct (resp_dict : PyDict) (h5_file : PyVal) : PyDict :=
  [("device_name", dictGetD resp_dict "device_name" (.str "")),
   ("data", .list []),
   ("h5_path", dictGetD resp_dict "h5path" (.str "")),
   ("h5_file", if pyTruthy h5_file then h5_file else .str ""),
   ("sample_rate", .float (parse_sample_rate (dictGetD resp_dict "sample_rate" PyVal.none))),
   ("sample_rate_units", dictGetD resp_dict "sample_rate_units" (.str "Hz")),
   ("units", dictGetD resp_dict "units" (.str "mV")),
   ("spike_times", .list []),
   ("offset_ms", .float 0)]

/-- Source `field_mapper.build_stimulus_struct`: stimulus struct with empty
data and flattened stimulus parameters (dicts and strings are flattened when
truthy, everything else yields an empty mapping). -/
def build_stimulus_struct (parse : String → Option PyVal) (stim_dict : PyDict)
    (h5_file : PyVal) : PyDict :=
  let sp0 := dictGetD stim_dict "stimulus_parameters" (.dict [])
  let sp : PyDict :=
    match sp0 with
    | .dict d => if !d.isEmpty then flatten_json_params parse (.dict d) "" else []
    | .str s => if s != "" then flatten_json_params parse (.str s) "" else []
    | _ => []
  [("device_name", dictGetD stim_dict "device_name" (.str "")),
   ("stimulus_id", dictGetD stim_dict "stimulus_id" (.str "")),
   ("data", .list []),
   ("h5_path", dictGetD stim_dict "h5path" (.str "")),
   ("h5_file", if pyTruthy h5_file then h5_file else .str ""),
   ("sample_rate", .float (parse_sample_rate (dictGetD stim_dict "sample_rate" PyVal.none))),
   ("units", dictGetD stim_dict "units" (.str "normalized")),
   ("stimulus_parameters", .dict sp)]

/-- Raw source-tree node as produced by `generate_object_tree`: an `object`
payload list, `children`, `tags`, and for epoch nodes `responses`/`stimuli`
record lists. -/
inductive Node where
  | mk (object : List PyDict) (children : List Node) (tags : List PyDict)
       (responses : List PyDict) (stimuli : List PyDict)

/-- Object payload list of a node. -/
def Node.object : Node → List PyDict
  | .mk o _ _ _ _ => o

/-- Children of a node. -/
def Node.children : Node → List Node
  | .mk _ c _ _ _ => c

/-- Tags of a node. -/
def Node.tags : Node → List PyDict
  | .mk _ _ t _ _ => t

/-- Response record dicts of a node. -/
def Node.responses : Node → List PyDict
  | .mk _ _ _ r _ => r

/-- Stimulus record dicts of a node. -/
def Node.stimuli : Node → List PyDict
  | .mk _ _ _ _ s => s

/-- Source `export_mat.extract_tags`: keep only the user/tag pair of each raw
tag, defaulting to empty strings; an empty tag list yields an empty list. -/
def extract_tags (node : Node) : PyVal :=
  let raw := node.tags
  if raw.isEmpty then .list []
  else .list (raw.map fun t =>
    .dict [("user", dictGetD t "user" (.str "")), ("tag", dictGetD t "tag" (.str ""))])

/-- Source `export_mat.build_epoch`: epoch dict with its own flattened
parameters and response/stimulus structs built per record. -/
def build_epoch (parse : String → Option PyVal) (epoch_node : Node) (h5_file : PyVal) : PyDict :=
  let epoch_data := epoch_node.object.headD []
  let epoch_fields := extract_epoch_fields epoch_data
  let flat_params := flatten_json_params parse (dictGetD epoch_data "parameters" (.dict [])) ""
  [("id", dictGetD epoch_fields "id" PyVal.none),
   ("label", dictGetD epoch_fields "label" PyVal.none),
   ("start_time", dictGetD epoch_fields "start_time" PyVal.none),
   ("end_time", dictGetD epoch_fields "end_time" PyVal.none),
   ("parameters", .dict flat_params),
   ("tags", extract_tags epoch_node),
   ("responses", .list (epoch_node.responses.map fun r => .dict (build_response_struct r h5_file))),
   ("stimuli", .list (epoch_node.stimuli.map fun s => .dict (build_stimulus_struct parse s h5_file)))]

/-- Source `export_mat.build_epoch_block`: epoch-block dict with its own
flattened parameters and one built epoch per child. -/
def build_epoch_block (parse : String → Option PyVal) (eb_node : Node) (h5_file : PyVal) : PyDict :=
  let eb_data := eb_node.object.headD []
  let eb_fields := extract_epoch_block_fields eb_data
  let flat_params := flatten_json_params parse (dictGetD eb_data "parameters" (.dict [])) ""
  [("id", dictGetD eb_fields "id" PyVal.none),
   ("label", dictGetD eb_fields "label" PyVal.none),
   ("protocol_name", dictGetD eb_fields "protocol_name" PyVal.none),
   ("protocol_id", dictGetD eb_fields "protocol_id" PyVal.none),
   ("start_time", dictGetD eb_fields "start_time" PyVal.none),
   ("end_time", dictGetD eb_fields "end_time" PyVal.none),
   ("parameters", .dict flat_params),
   ("tags", extract_tags eb_node),
   ("epochs", .list (eb_node.children.map fun c => .dict (build_epoch parse c h5_file)))]

/-- Source `export_mat.build_epoch_group`. -/
def build_epoch_group (parse : String → Option PyVal) (eg_node : Node) (h5_file : PyVal) : PyDict :=
  let eg_data := eg_node.object.headD []
  let eg_fields := extract_epoch_group_fields eg_data
  [("id", dictGetD eg_fields "id" PyVal.none),
   ("label", dictGetD eg_fields "label" PyVal.none),
   ("protocol_name", dictGetD eg_fields "protocol_name" PyVal.none),
   ("protocol_id", dictGetD eg_fields "protocol_id" PyVal.none),
   ("start_time", dictGetD eg_fields "start_time" PyVal.none),
   ("end_time", dictGetD eg_fields "end_time" PyVal.none),
   ("tags", extract_tags eg_node),
   ("epoch_blocks", .list (eg_node.children.map fun b => .dict (build_epoch_block parse b h5_file)))]

/-- Source `export_mat.build_cell`: cell dict with animal/preparation
metadata merged into `properties`. -/
def build_cell (parse : String → Option PyVal) (cell_node : Node)
    (animal_meta prep_meta : PyDict) (h5_file : PyVal) : PyDict :=
  let cell_data := cell_node.object.headD []
  let cell_fields := extract_cell_fields cell_data
  [("id", dictGetD cell_fields "id" PyVal.none),
   ("label", dictGetD cell_fields "label" PyVal.none),
   ("type", dictGetD cell_fields "type" PyVal.none),
   ("tags", extract_tags cell_node),
   ("properties", .dict
      [("species", dictGetD animal_meta "species" (.str "")),
       ("age", dictGetD animal_meta "age" (.str "")),
       ("sex", dictGetD animal_meta "sex" (.str "")),
       ("bath_solution", dictGetD prep_meta "bath_solution" (.str "")),
       ("region", dictGetD prep_meta "region" (.str ""))]),
   ("epoch_groups", .list (cell_node.children.map fun eg => .dict (build_epoch_group parse eg h5_file)))]

/-- Errors raised by `export_mat.build_experiment`: the ValueError raised for
MEA experiments (carrying `exp_name`, falling back to `id`), and the
IndexError of `exp_node['object'][0]` on an empty payload list. -/
inductive ExportError where
  | meaNotSupported (ident : PyVal)
  | indexError

/-- Source `export_mat.build_experiment`: rejects MEA experiments with a
descriptive error, otherwise flattens Animal and Preparation into the cells
and assembles the experiment dict (insertion order: extracted fields, then
`tags`, then `cells`). -/
def build_experiment (parse : String → Option PyVal) (exp_node : Node)
    (h5_file_path : PyVal) : Except ExportError PyDict :=
  match exp_node.object with
  | [] => .error .indexError
  | exp_data :: _ =>
      if pyTruthy (dictGetD exp_data "is_mea" (.bool false)) then
        .error (.meaNotSupported (dictGetD exp_data "exp_name" (dictGetD exp_data "id" PyVal.none)))
      else
        let experiment := extract_experiment_fields exp_data
        let h5 := match h5_file_path with
          | PyVal.none => dictGetD exp_data "data_file" (.str "")
          | p => p
        let cells := exp_node.children.flatMap fun animal_node =>
          let animal_fields := extract_animal_fields (animal_node.object.headD [])
          animal_node.children.flatMap fun prep_node =>
            let prep_fields := extract_preparation_fields (prep_node.object.headD [])
            prep_node.children.map fun cell_node =>
              PyVal.dict (build_cell parse cell_node animal_fields prep_fields h5)
        .ok (dictSet (dictSet experiment "tags" (extract_tags exp_node)) "cells" (.list cells))

/-- Readable content of a `.ugm` selection-mask file (HDF5), as consumed by
`import_ugm.read_ugm`: presence of the `ugm` struct, the scalar fields, the
boolean selection mask, and presence/content of the `epoch_h5_uuids` cell
array of stable identifiers. -/
structure UgmFile where
  hasUgm : Bool
  version : String
  created : String
  epoch_count : Int
  selection_mask : List Bool
  hasUuids : Bool
  epoch_h5_uuids : List String

/-- The ValueErrors raised by `import_ugm.read_ugm`, in source order: no
`ugm` struct, missing `epoch_h5_uuids` (v1.0 format), mask/uuid length
mismatch, and all-empty uuids (non-DataJoint origin). -/
inductive UgmError where
  | noUgmStruct
  | missingUuids (version : String)
  | lengthMismatch (maskLen uuidCount : Nat)
  | allEmptyUuids

/-- Successful result dict of `import_ugm.read_ugm`. -/
structure UgmResult where
  version : String
  created : String
  epoch_count : Int
  selected_count : Nat
  excluded_count : Nat
  excluded_uuids : List String
  selected_uuids : List String

/-- Source `import_ugm.read_ugm`: validates the struct, the presence of the
stable identifiers, the mask/identifier length, and that not all identifiers
are empty, then splits the non-empty identifiers into selected/excluded by
the mask. -/
def read_ugm (f : UgmFile) : Except UgmError UgmResult :=
  if !f.hasUgm then .error .noUgmStruct
  else if !f.hasUuids then .error (.missingUuids f.version)
  else if f.selection_mask.length ≠ f.epoch_h5_uuids.length then
    .error (.lengthMismatch f.selection_mask.length f.epoch_h5_uuids.length)
  else if (f.epoch_h5_uuids.filter (fun u => u != "")).length = 0 then
    .error .allEmptyUuids
  else
    let pairs := f.epoch_h5_uuids.zip f.selection_mask
    let selected_uuids := (pairs.filter fun p => (p.1 != "") && p.2).map Prod.fst
    let excluded_uuids := (pairs.filter fun p => (p.1 != "") && !p.2).map Prod.fst
    .ok ⟨f.version, f.created, f.epoch_count,
         selected_uuids.length, excluded_uuids.length,
         excluded_uuids, selected_uuids⟩

namespace EpicTreeExporter

/-- Content found behind an epoch group's `data` group in the H5 file:
optional `quantity` samples, `sampleRate` and `units` attributes. -/
structure H5DataGroup where
  quantity : Option (List Rat)
  sampleRate : Option Rat
  units : Option String

/-- Outcome of trying to read one (file, locator) pair with h5py, as seen by
`_extract_response_data`/`_extract_stimulus_data`: the file does not exist,
opening/reading raises, the cleaned path is not in the file, or the path is
found (with the `data` group possibly absent). -/
inductive H5Read where
  | noFile
  | openError
  | noPath
  | found (dataGroup : Option H5DataGroup)

/-- True for the outcomes in which the sample payload could not be read from
its source file (each prints a warning in `_extract_response_data`). -/
def readFailed : H5Read → Bool
  | .noFile => true
  | .openError => true
  | .noPath => true
  | .found _ => false

/-- Source `EpicTreeExporter._extract_response_data`, with the external
h5py/filesystem access abstracted as the oracle `read`.  Returns the warnings
printed and the optional response record: nodes without a truthy `h5_file`
and `h5_path` yield a warning and no record; otherwise one record is always
returned, with defaults `data=[]`, `sample_rate=10000`, `units='unknown'`
kept on any read failure. -/
def extract_response_data (read : PyVal → PyVal → H5Read) (response_data : PyDict) :
    List String × Option PyDict :=
  let h5_file := dictGetD response_data "h5_file" PyVal.none
  let h5_path := dictGetD response_data "h5_path" PyVal.none
  let device_name := pyToString (dictGetD response_data "label" (.str ""))
  if !pyTruthy h5_file || !pyTruthy h5_path then
    (["    Warning: No H5 path for response " ++ device_name], Option.none)
  else
    let outcome := read h5_file h5_path
    let warns : List String :=
      match outcome with
      | .noFile => ["    Warning: H5 file not found: " ++ pyToString h5_file]
      | .openError => ["    Warning: Error reading H5 for " ++ device_name]
      | .noPath => ["    Warning: Path " ++ pyToString h5_path ++ " not found in H5"]
      | .found _ => []
    let data : List Rat :=
      match outcome with
      | .found (some dg) => dg.quantity.getD []
      | _ => []
    let sample_rate : Rat :=
      match outcome with
      | .found (some dg) => dg.sampleRate.getD 10000
      | _ => 10000
    let units : String :=
      match outcome with
      | .found (some dg) => dg.units.getD "unknown"
      | _ => "unknown"
    (warns, some
      [("device_name", .str device_name),
       ("data", .list (data.map PyVal.float)),
       ("spike_times", .list []),
       ("sample_rate", .float sample_rate),
       ("sample_rate_units", .str "Hz"),
       ("units", .str units),
       ("offset_ms", .float 0)])

/-- Source `EpicTreeExporter._extract_stimulus_data` (the live version): like
the response variant but silent (no warnings at all — the missing-locator
branch returns `None` without printing and the read exception branch is
`pass`), with default `units='normalized'`. -/
def extract_stimulus_data (read : PyVal → PyVal → H5Read) (stimulus_data : PyDict) :
    Option PyDict :=
  let h5_file := dictGetD stimulus_data "h5_file" PyVal.none
  let h5_path := dictGetD stimulus_data "h5_path" PyVal.none
  let device_name := pyToString (dictGetD stimulus_data "label" (.str ""))
  if !pyTruthy h5_file || !pyTruthy h5_path then Option.none
  else
    let outcome := read h5_file h5_path
    let data : List Rat :=
      match outcome with
      | .found (some dg) => dg.quantity.getD []
      | _ => []
    let sample_rate : Rat :=
      match outcome with
      | .found (some dg) => dg.sampleRate.getD 10000
      | _ => 10000
    let units : String :=
      match outcome with
      | .found (some dg) => dg.units.getD "normalized"
      | _ => "normalized"
    some
      [("device_name", .str device_name),
       ("data", .list (data.map PyVal.float)),
       ("sample_rate", .float sample_rate),
       ("units", .str units)]

/-- Source `EpicTreeExporter._convert_datetime`: `None` becomes the empty
string, strings pass through, anything else is stringified. -/
def convert_datetime (dt : PyVal) : String :=
  match dt with
  | .none => ""
  | .str s => s
  | v => pyToString v

/-- Epoch-level tree node as consumed by `EpicTreeExporter._build_epoch`:
its numeric id, its `label` value (the result of `epoch_node.get('label',
'')`), and its optional `object` payload list (`none` models a node without
an `object` key). -/
structure ENode where
  id : Int
  label : PyVal
  object : Option (List PyDict)

/-- Source `EpicTreeExporter._build_epoch`, with `get_options` abstracted as
the oracle `getOpts` (an `Except` models the helper raising, which the source
catches and turns into a per-epoch warning; `none` models a falsy result).
Returns the warnings printed and the epoch dict; the only uncaught exception
is the IndexError of `epoch_node['object'][0]` on a present-but-empty payload
list. -/
def build_epoch (read : PyVal → PyVal → H5Read)
    (getOpts : Int → Int → Except String (Option (List PyDict × List PyDict)))
    (epoch_node : ENode) (experiment_id : Int) (is_mea : Bool) :
    Except String (List String × PyDict) :=
  match epoch_node.object with
  | some [] => .error "IndexError"
  | o =>
      let epoch_obj : PyDict :=
        match o with
        | some (d :: _) => d
        | _ => []
      let base : PyDict :=
        [("id", .int epoch_node.id),
         ("label", .str (pyToString epoch_node.label)),
         ("start_time", .str (convert_datetime (dictGetD epoch_obj "start_time" PyVal.none))),
         ("end_time", .str (convert_datetime (dictGetD epoch_obj "end_time" PyVal.none))),
         ("epoch_start_ms", .float 0),
         ("epoch_end_ms", .float 0),
         ("frame_times_ms", .list []),
         ("parameters", dictGetD epoch_obj "parameters" (.dict [])),
         ("responses", .list []),
         ("stimuli", .list [])]
      if is_mea then .ok ([], base)
      else
        match getOpts epoch_node.id experiment_id with
        | .error e =>
            .ok (["Warning: Could not extract data for epoch " ++ toString epoch_node.id ++ ": " ++ e], base)
        | .ok Option.none => .ok ([], base)
        | .ok (some (rs, ss)) =>
            let rr := rs.map (extract_response_data read)
            let responses := rr.filterMap Prod.snd
            let warns := rr.flatMap Prod.fst
            let stimuli := ss.filterMap (extract_stimulus_data read)
            .ok (warns,
              dictSet (dictSet base "responses" (.list (responses.map PyVal.dict)))
                "stimuli" (.list (stimuli.map PyVal.dict)))

end EpicTreeExporter

/-- Specification-side characterization (from the spec's words, to compare
with the source flattener): the underscore-joined paths to the non-mapping
leaves of a nested parameter blob, in traversal order. -/
def specLeafKeys : List (String × PyVal) → String → List String
  | [], _ => []
  | (k, v) :: rest, pfx =>
      (match v with
       | .dict d => specLeafKeys d (joinKey pfx k)
       | _ => [joinKey pfx k]) ++ specLeafKeys rest pfx
termination_by items _ => sizeOf items

/-- Specification-side characterization: the (underscore-joined path,
sanitized leaf value) pairs of a nested parameter blob, in traversal order. -/
def specLeafPairs : List (String × PyVal) → String → List (String × PyVal)
  | [], _ => []
  | (k, v) :: rest, pfx =>
      (match v with
       | .dict d => specLeafPairs d (joinKey pfx k)
       | _ => [(joinKey pfx k, sanitize_for_matlab v)]) ++ specLeafPairs rest pfx
termination_by items _ => sizeOf items

theorem dictUpdate_nil (d : PyDict) : dictUpdate d [] = d := rfl

theorem dictUpdate_cons (d : PyDict) (k : String) (v : PyVal) (e : PyDict) :
    dictUpdate d ((k, v) :: e) = dictUpdate (dictSet d k v) e := rfl

theorem dictGet_dictSet (d : PyDict) (k : String) (v : PyVal) (k' : String) :
    dictGet (dictSet d k v) k' = if k = k' then some v else dictGet d k' := by
  induction d with
  | nil => by_cases h : k = k' <;> simp [dictSet, dictGet, h]
  | cons p tl ih =>
      obtain ⟨k0, v0⟩ := p
      by_cases h0 : k0 = k
      · subst h0
        by_cases h : k0 = k' <;> simp [dictSet, dictGet, h]
      · by_cases h : k0 = k' <;> by_cases h' : k = k' <;>
          simp_all [dictSet, dictGet, ih]

theorem isSome_dictGet_dictSet (d : PyDict) (k : String) (v : PyVal) (k' : String) :
    (dictGet (dictSet d k v) k').isSome ↔ k = k' ∨ (dictGet d k').isSome := by
  rw [dictGet_dictSet]
  by_cases h : k = k' <;> simp [h]

theorem mem_dictSet (d : PyDict) (k : String) (v : PyVal) (p : String × PyVal)
    (hp : p ∈ dictSet d k v) : p ∈ d ∨ p = (k, v) := by
  induction d with
  | nil => simp [dictSet] at hp; simp [hp]
  | cons q tl ih =>
      obtain ⟨k0, v0⟩ := q
      by_cases h0 : k0 = k
      · subst h0
        simp [dictSet] at hp
        rcases hp with h | h
        · subst h; right; rfl
        · left; simp [h]
      · simp [dictSet, h0] at hp
        rcases hp with h | h
        · left; simp [h]
        · rcases ih h with h' | h'
          · left; simp [h']
          · right; exact h'

theorem isSome_dictGet_dictUpdate (d e : PyDict) (k : String) :
    (dictGet (dictUpdate d e) k).isSome ↔ (dictGet d k).isSome ∨ (dictGet e k).isSome := by
  induction e generalizing d with
  | nil => simp [dictUpdate_nil, dictGet]
  | cons q e' ih =>
      obtain ⟨k0, v0⟩ := q
      rw [dictUpdate_cons, ih, isSome_dictGet_dictSet]
      by_cases h : k0 = k <;> simp [dictGet, h]

theorem mem_dictUpdate (d e : PyDict) (p : String × PyVal)
    (hp : p ∈ dictUpdate d e) : p ∈ d ∨ p ∈ e := by
  induction e generalizing d with
  | nil => rw [dictUpdate_nil] at hp; exact Or.inl hp
  | cons q e' ih =>
      obtain ⟨k0, v0⟩ := q
      rw [dictUpdate_cons] at hp
      rcases ih _ hp with h | h
      · rcases mem_dictSet _ _ _ _ h with h' | h'
        · exact Or.inl h'
        · right; simp [h']
      · right; simp [h]

theorem flattenItems_isSome (items : List (String × PyVal)) (pfx : String) (acc : PyDict)
    (k : String) :
    (dictGet (flattenItems items pfx acc) k).isSome ↔
      (dictGet acc k).isSome ∨ k ∈ specLeafKeys items pfx := by
  induction items, pfx, acc using flattenItems.induct with
  | case1 pfx acc => simp [flattenItems, specLeafKeys]
  | case2 key rest pfx acc d ih1 ih2 =>
      simp only [flattenItems]
      rw [ih2, isSome_dictGet_dictUpdate, ih1]
      simp only [specLeafKeys, dictGet, List.mem_append]
      simp
      tauto
  | case3 key rest pfx acc v hnd ih =>
      cases v with
      | dict d => exact (hnd d rfl).elim
      | none =>
          simp only [flattenItems]
          rw [ih, isSome_dictGet_dictSet]
          simp [specLeafKeys]
          tauto
      | bool b =>
          simp only [flattenItems]
          rw [ih, isSome_dictGet_dictSet]
          simp [specLeafKeys]
          tauto
      | int n =>
          simp only [flattenItems]
          rw [ih, isSome_dictGet_dictSet]
          simp [specLeafKeys]
          tauto
      | float q =>
          simp only [flattenItems]
          rw [ih, isSome_dictGet_dictSet]
          simp [specLeafKeys]
          tauto
      | str s =>
          simp only [flattenItems]
          rw [ih, isSome_dictGet_dictSet]
          simp [specLeafKeys]
          tauto
      | bytes bs =>
          simp only [flattenItems]
          rw [ih, isSome_dictGet_dictSet]
          simp [specLeafKeys]
          tauto
      | datetime s =>
          simp only [flattenItems]
          rw [ih, isSome_dictGet_dictSet]
          simp [specLeafKeys]
          tauto
      | other s =>
          simp only [flattenItems]
          rw [ih, isSome_dictGet_dictSet]
          simp [specLeafKeys]
          tauto
      | list xs =>
          simp only [flattenItems]
          rw [ih, isSome_dictGet_dictSet]
          simp [specLeafKeys]
          tauto

theorem flattenItems_cons_ne_dict (key : String) (v : PyVal) (rest : List (String × PyVal))
    (pfx : String) (acc : PyDict) (hnd : ∀ d, v ≠ PyVal.dict d) :
    flattenItems ((key, v) :: rest) pfx acc =
      flattenItems rest pfx (dictSet acc (joinKey pfx key) (sanitize_for_matlab v)) := by
  cases v
  case dict d => exact (hnd d rfl).elim
  all_goals simp [flattenItems]

theorem specLeafPairs_cons_ne_dict (k : String) (v : PyVal) (rest : List (String × PyVal))
    (pfx : String) (hnd : ∀ d, v ≠ PyVal.dict d) :
    specLeafPairs ((k, v) :: rest) pfx =
      (joinKey pfx k, sanitize_for_matlab v) :: specLeafPairs rest pfx := by
  cases v
  case dict d => exact (hnd d rfl).elim
  all_goals simp [specLeafPairs]

theorem sanitize_for_matlab_ne_dict (v : PyVal) (hnd : ∀ d, v ≠ PyVal.dict d) :
    ∀ es, sanitize_for_matlab v ≠ PyVal.dict es := by
  intro es
  cases v
  case dict d => exact (hnd d rfl).elim
  all_goals simp [sanitize_for_matlab]

theorem flattenItems_mem (items : List (String × PyVal)) (pfx : String) (acc : PyDict)
    (p : String × PyVal) :
    p ∈ flattenItems items pfx acc → p ∈ acc ∨ p ∈ specLeafPairs items pfx := by
  induction items, pfx, acc using flattenItems.induct with
  | case1 pfx acc =>
      intro hp
      simp only [flattenItems] at hp
      exact Or.inl hp
  | case2 key rest pfx acc d ih1 ih2 =>
      intro hp
      simp only [flattenItems] at hp
      rcases ih2 hp with h | h
      · rcases mem_dictUpdate _ _ _ h with h' | h'
        · exact Or.inl h'
        · rcases ih1 h' with h'' | h''
          · simp at h''
          · right
            simp only [specLeafPairs, List.mem_append]
            exact Or.inl h''
      · right
        simp only [specLeafPairs, List.mem_append]
        exact Or.inr h
  | case3 key rest pfx acc v hnd ih =>
      intro hp
      rw [flattenItems_cons_ne_dict _ _ _ _ _ hnd] at hp
      rcases ih hp with h | h
      · rcases mem_dictSet _ _ _ _ h with h' | h'
        · exact Or.inl h'
        · right
          rw [specLeafPairs_cons_ne_dict _ _ _ _ hnd]
          simp [h']
      · right
        rw [specLeafPairs_cons_ne_dict _ _ _ _ hnd]
        simp [h]

theorem specLeafPairs_val_ne_dict (items : List (String × PyVal)) (pfx : String)
    (k : String) (v : PyVal) :
    (k, v) ∈ specLeafPairs items pfx → ∀ es, v ≠ PyVal.dict es := by
  induction items, pfx using specLeafPairs.induct with
  | case1 pfx => intro hp; simp [specLeafPairs] at hp
  | case2 key w rest pfx ihm ihr =>
      intro hp
      cases w
      case dict d =>
        simp only [specLeafPairs, List.mem_append] at hp
        rcases hp with h | h
        · exact ihm h
        · exact ihr h
      all_goals simp only [specLeafPairs, List.singleton_append, List.mem_cons] at hp
      all_goals rcases hp with h | h
      all_goals first
        | exact ihr h
        | (simp only [Prod.mk.injEq] at h; rcases h with ⟨h1, h2⟩; subst h2; intro es heq; simp [sanitize_for_matlab] at heq)

mutual

theorem deep_sanitize_fix : (v : PyVal) → deep_sanitize (deep_sanitize v) = deep_sanitize v
  | .none => by simp [deep_sanitize]
  | .bool b => by simp [deep_sanitize]
  | .int n => by simp [deep_sanitize]
  | .float q => by simp [deep_sanitize]
  | .str s => by simp [deep_sanitize]
  | .bytes bs => by simp [deep_sanitize]
  | .datetime s => by simp [deep_sanitize]
  | .other s => by simp [deep_sanitize]
  | .list xs => by
      have h := deepSanitizeList_fix xs
      simp [deep_sanitize, h]
  | .dict es => by
      have h := deepSanitizeEntries_fix es
      simp [deep_sanitize, h]
termination_by v => sizeOf v

theorem deepSanitizeList_fix :
    (xs : List PyVal) → deepSanitizeList (deepSanitizeList xs) = deepSanitizeList xs
  | [] => by simp [deepSanitizeList]
  | x :: xs => by
      have h1 := deep_sanitize_fix x
      have h2 := deepSanitizeList_fix xs
      simp [deepSanitizeList, h1, h2]
termination_by xs => sizeOf xs

theorem deepSanitizeEntries_fix :
    (es : List (String × PyVal)) → deepSanitizeEntries (deepSanitizeEntries es) = deepSanitizeEntries es
  | [] => by simp [deepSanitizeEntries]
  | (k, v) :: es => by
      have h1 := deep_sanitize_fix v
      have h2 := deepSanitizeEntries_fix es
      simp [deepSanitizeEntries, h1, h2]
termination_by es => sizeOf es

end

/-- C9: the document sanitizer is idempotent — for every value `v` (scalar,
mapping, or sequence, including null and temporal values),
`deep_sanitize (deep_sanitize v) = deep_sanitize v`. -/
theorem c9_deep_sanitize_idempotent (v : PyVal) :
    deep_sanitize (deep_sanitize v) = deep_sanitize v :=
  deep_sanitize_fix v

/-- C6: for every nested parameter mapping the flattener returns a
single-level mapping whose keys are exactly the underscore-joined paths to
the leaves, whose entries are (path, sanitized leaf value) pairs, and which
contains no nested mapping as a value; in particular flattening
`{"a": {"b": {"c": 1}}}` yields exactly `{"a_b_c": 1}`. -/
theorem c6_flatten_keys_are_leaf_paths (parse : String → Option PyVal)
    (d : List (String × PyVal)) :
    flatten_json_params (fun _ => Option.none)
        (.dict [("a", .dict [("b", .dict [("c", .int 1)])])]) "" = [("a_b_c", .int 1)]
    ∧ (∀ k, (dictGet (flatten_json_params parse (.dict d) "") k).isSome ↔ k ∈ specLeafKeys d "")
    ∧ (∀ p, p ∈ flatten_json_params parse (.dict d) "" → p ∈ specLeafPairs d "")
    ∧ (∀ k v, (k, v) ∈ flatten_json_params parse (.dict d) "" → ∀ es, v ≠ PyVal.dict es) := by
  refine ⟨?_, ?_, ?_, ?_⟩
  · simp [flatten_json_params, flattenItems, joinKey, dictUpdate, dictSet, sanitize_for_matlab]
  · intro k
    have h := flattenItems_isSome d "" [] k
    simpa [flatten_json_params, dictGet] using h
  · intro p hp
    have h := flattenItems_mem d "" [] p (by simpa [flatten_json_params] using hp)
    simpa using h
  · intro k v h
    have hm := flattenItems_mem d "" [] (k, v) (by simpa [flatten_json_params] using h)
    exact specLeafPairs_val_ne_dict d "" k v (hm.resolve_left (by simp))

/-- C6 witness: the general parts of the claim theorem applied to the
concrete blob `{"a": {"b": {"c": 1}}}` at key `"a_b_c"`. -/
theorem c6_flatten_keys_are_leaf_paths_witness :
    (dictGet (flatten_json_params (fun _ => Option.none)
        (.dict [("a", .dict [("b", .dict [("c", .int 1)])])]) "") "a_b_c").isSome := by
  have h := c6_flatten_keys_are_leaf_paths (fun _ => Option.none)
    [("a", .dict [("b", .dict [("c", .int 1)])])]
  exact (h.2.1 "a_b_c").mpr (by simp [specLeafKeys, joinKey])

/-- C10: the flattener emits no output key for a key whose value is an empty
mapping — flattening `{"k": {}}` yields the empty mapping, and in general an
entry with an empty-dict value can be deleted anywhere in a parameter dict
without changing the flattened result. -/
theorem c10_empty_nested_blob_dropped :
    flatten_json_params (fun _ => Option.none) (.dict [("k", .dict [])]) "" = []
    ∧ ∀ (xs ys : List (String × PyVal)) (k : String) (pfx : String) (acc : PyDict),
        flattenItems (xs ++ (k, PyVal.dict []) :: ys) pfx acc = flattenItems (xs ++ ys) pfx acc := by
  constructor
  · simp [flatten_json_params, flattenItems, joinKey, dictUpdate]
  · intro xs ys k pfx acc
    induction xs generalizing acc with
    | nil =>
        simp only [List.nil_append]
        simp [flattenItems, dictUpdate]
    | cons q xs ih =>
        obtain ⟨k0, v0⟩ := q
        cases v0
        case dict d0 =>
          simp only [List.cons_append]
          simp only [flattenItems]
          exact ih _
        all_goals simp only [List.cons_append]
        all_goals rw [flattenItems_cons_ne_dict _ _ _ _ _ (fun d h => by cases h),
          flattenItems_cons_ne_dict _ _ _ _ _ (fun d h => by cases h)]
        all_goals exact ih _

/-- C8: for every string input the flattener first consults the parser —
on parse failure it returns the empty mapping, on success it flattens a
parsed dict and returns the empty mapping for any parsed non-dict; it is a
total function, so no string input raises. -/
theorem c8_string_blob_parse_first (parse : String → Option PyVal) (s : String) (pfx : String) :
    (parse s = Option.none → flatten_json_params parse (.str s) pfx = [])
    ∧ (∀ d, parse s = some (.dict d) →
        flatten_json_params parse (.str s) pfx = flattenItems d pfx [])
    ∧ (∀ v, parse s = some v → (∀ d, v ≠ PyVal.dict d) →
        flatten_json_params parse (.str s) pfx = []) := by
  refine ⟨?_, ?_, ?_⟩
  · intro h
    simp [flatten_json_params, h]
  · intro d h
    simp [flatten_json_params, h]
  · intro v h hnd
    cases v
    case dict d => exact (hnd d rfl).elim
    all_goals simp [flatten_json_params, h]

/-- C8 witness: a string the parser rejects flattens to the empty mapping. -/
theorem c8_string_blob_parse_first_witness :
    flatten_json_params (fun _ => Option.none) (.str "not json") "" = [] :=
  (c8_string_blob_parse_first (fun _ => Option.none) "not json" "").1 rfl

/-- C5 (code bug): the field extractors do surface raw nulls — on an empty
input `extract_experiment_fields` emits `None` for `id`, and a field that is
present with value `None` but fetched with a plain `.get(key, default)`
passes the `None` through (`exp_name` here, `start_time` in the epoch-group
extractor), contradicting the claim and the functions' own docstrings. -/
theorem c5_extractors_surface_raw_null :
    dictGet (extract_experiment_fields []) "id" = some PyVal.none
    ∧ dictGet (extract_experiment_fields [("exp_name", PyVal.none)]) "exp_name" = some PyVal.none
    ∧ dictGet (extract_epoch_group_fields [("start_time", PyVal.none)]) "start_time" = some PyVal.none := by
  refine ⟨?_, ?_, ?_⟩ <;> rfl

/-- Concrete epoch node with an empty payload (its epoch-level parameters
default to the empty blob). -/
def c1EpochNode : Node := .mk [] [] [] [] []

/-- Concrete epoch block whose payload carries the parameter blob
`{"bk": 1}` and which contains the single epoch `c1EpochNode`. -/
def c1BlockNode : Node :=
  .mk [[("parameters", .dict [("bk", .int 1)])]] [c1EpochNode] [] [] []

/-- C1 counterexample: in `export_mat` the block's flattened parameters
contain the key `"bk"`, yet the epoch emitted under that block carries the
empty parameters mapping — the block-level key absent at epoch level does
not appear in the epoch's parameters, so the claimed block-to-epoch overlay
does not happen. -/
theorem c1_block_params_not_overlaid_counterexample :
    dictGet (build_epoch_block (fun _ => Option.none) c1BlockNode (PyVal.str "")) "parameters"
      = some (PyVal.dict [("bk", PyVal.int 1)])
    ∧ dictGet (build_epoch_block (fun _ => Option.none) c1BlockNode (PyVal.str "")) "epochs"
      = some (PyVal.list [PyVal.dict (build_epoch (fun _ => Option.none) c1EpochNode (PyVal.str ""))])
    ∧ dictGet (build_epoch (fun _ => Option.none) c1EpochNode (PyVal.str "")) "parameters"
      = some (PyVal.dict []) := by
  refine ⟨?_, ?_, ?_⟩ <;>
    simp [c1BlockNode, c1EpochNode, build_epoch_block, build_epoch, extract_epoch_block_fields,
      extract_epoch_fields, extract_tags, dictGetD, dictGet, flatten_json_params, flattenItems,
      dictSet, dictUpdate, sanitize_for_matlab, joinKey, Node.object, Node.children, Node.tags,
      Node.responses, Node.stimuli, pyOr, pyTruthy]

/-- C1 amended: the epoch dict emitted by `export_mat.build_epoch` carries a
parameters mapping computed solely from the epoch node's own parameters blob
(flattened), and `build_epoch_block` emits exactly those per-epoch dicts;
block-level flattened parameters stay on the epoch block and are never
copied into or overlaid under an epoch's parameters. -/
theorem c1_epoch_params_from_epoch_level_only (parse : String → Option PyVal)
    (eb_node : Node) (c : Node) (h5 : PyVal) :
    dictGet (build_epoch_block parse eb_node h5) "epochs"
      = some (PyVal.list (eb_node.children.map fun ch => PyVal.dict (build_epoch parse ch h5)))
    ∧ dictGet (build_epoch parse c h5) "parameters"
      = some (PyVal.dict (flatten_json_params parse
          (dictGetD (c.object.headD []) "parameters" (PyVal.dict [])) "")) := by
  constructor
  · simp [build_epoch_block, dictGet]
  · simp [build_epoch, dictGet]

/-- C2: for every experiment node whose payload dict maps `is_mea` to
`True`, `export_mat.build_experiment` fails with the descriptive
MEA-not-supported error, regardless of every other field of the node. -/
theorem c2_mea_experiment_rejected (parse : String → Option PyVal) (exp_node : Node)
    (h5 : PyVal) (exp_data : PyDict) (rest : List PyDict)
    (hobj : exp_node.object = exp_data :: rest)
    (hmea : dictGet exp_data "is_mea" = some (PyVal.bool true)) :
    build_experiment parse exp_node h5 =
      Except.error (ExportError.meaNotSupported
        (dictGetD exp_data "exp_name" (dictGetD exp_data "id" PyVal.none))) := by
  unfold build_experiment
  rw [hobj]
  simp [dictGetD, hmea, pyTruthy]

/-- C2 witness: a concrete experiment node flagged `is_mea=True` is
rejected. -/
theorem c2_mea_experiment_rejected_witness :
    build_experiment (fun _ => Option.none)
        (Node.mk [[("is_mea", PyVal.bool true)]] [] [] [] []) PyVal.none
      = Except.error (ExportError.meaNotSupported PyVal.none) :=
  c2_mea_experiment_rejected (fun _ => Option.none) _ PyVal.none
    [("is_mea", PyVal.bool true)] [] rfl rfl

/-- C3: `read_ugm` returns no result — it raises a hard validation error —
both for files that lack the stable epoch identifiers entirely and for files
in which every identifier is the empty string. -/
theorem c3_reject_missing_or_all_empty_uuids (f : UgmFile)
    (h : f.hasUuids = false ∨ ∀ u ∈ f.epoch_h5_uuids, u = "") :
    ∃ e, read_ugm f = Except.error e := by
  unfold read_ugm
  split_ifs with h1 h2 h3 h4
  · exact ⟨_, rfl⟩
  · exact ⟨_, rfl⟩
  · exact ⟨_, rfl⟩
  · exact ⟨_, rfl⟩
  · exfalso
    rcases h with h | h
    · simp [h] at h2
    · apply h4
      have hnil : f.epoch_h5_uuids.filter (fun u => u != "") = [] := by
        rw [List.filter_eq_nil_iff]
        intro a ha
        simp [h a ha]
      simp [hnil]

/-- Concrete selection-mask file lacking the stable identifiers. -/
def c3FileNoUuids : UgmFile := ⟨true, "1.0", "2026-01-01", 3, [true, false, true], false, []⟩

/-- Concrete selection-mask file whose identifiers are all empty strings. -/
def c3FileAllEmpty : UgmFile := ⟨true, "1.1", "2026-01-01", 2, [true, false], true, ["", ""]⟩

/-- C3 witness: both concrete rejection cases. -/
theorem c3_reject_missing_or_all_empty_uuids_witness :
    (∃ e, read_ugm c3FileNoUuids = Except.error e)
    ∧ (∃ e, read_ugm c3FileAllEmpty = Except.error e) :=
  ⟨c3_reject_missing_or_all_empty_uuids c3FileNoUuids (Or.inl rfl),
   c3_reject_missing_or_all_empty_uuids c3FileAllEmpty (Or.inr (by decide))⟩

/-- C4: whenever the boolean selection mask and the identifier list differ in
length, `read_ugm` fails with the length-mismatch error (no truncation). -/
theorem c4_length_mismatch_rejected (f : UgmFile)
    (h1 : f.hasUgm = true) (h2 : f.hasUuids = true)
    (h3 : f.selection_mask.length ≠ f.epoch_h5_uuids.length) :
    read_ugm f =
      Except.error (UgmError.lengthMismatch f.selection_mask.length f.epoch_h5_uuids.length) := by
  simp [read_ugm, h1, h2, h3]

/-- Concrete selection-mask file with 5 identifiers but 4 inclusion flags. -/
def c4File : UgmFile :=
  ⟨true, "1.1", "2026-01-01", 5, [true, true, false, true], true, ["u1", "u2", "u3", "u4", "u5"]⟩

/-- C4 witness: the spec's 5-identifiers/4-flags example fails with the
length-mismatch error. -/
theorem c4_length_mismatch_rejected_witness :
    read_ugm c4File = Except.error (UgmError.lengthMismatch 4 5) :=
  c4_length_mismatch_rejected c4File rfl rfl (by decide)

/-- Read oracle on which every (file, locator) read raises. -/
def c7ReadFail : PyVal → PyVal → EpicTreeExporter.H5Read := fun _ _ => .openError

/-- Response record dict that carries a device label but no `h5_file`. -/
def c7MissingLocator : PyDict := [("label", PyVal.str "Amp1")]

/-- Concrete epoch node (no `object` key). -/
def c7Node : EpicTreeExporter.ENode := ⟨7, PyVal.str "epoch7", Option.none⟩

/-- Options oracle returning the single locator-less response record. -/
def c7GetOpts : Int → Int → Except String (Option (List PyDict × List PyDict)) :=
  fun _ _ => .ok (some ([c7MissingLocator], []))

/-- C7 counterexample: a response node lacking its source file path yields no
record at all — the enclosing epoch ends up with zero response records
despite one response node, refuting "exactly one record per node"; moreover a
stimulus node with a valid locator whose read fails does produce the
placeholder record, but silently (no warning anywhere in the stimulus path),
refuting "a per-node warning is surfaced". -/
theorem c7_one_record_per_node_counterexample :
    (EpicTreeExporter.extract_response_data c7ReadFail c7MissingLocator).2 = Option.none
    ∧ (EpicTreeExporter.build_epoch c7ReadFail c7GetOpts c7Node 1 false).map
        (fun p => dictGet p.2 "responses") = Except.ok (some (PyVal.list []))
    ∧ EpicTreeExporter.extract_stimulus_data c7ReadFail
        [("h5_file", PyVal.str "a.h5"), ("h5_path", PyVal.str "/x"), ("label", PyVal.str "LED")]
      = some [("device_name", PyVal.str "LED"), ("data", PyVal.list []),
              ("sample_rate", PyVal.float 10000), ("units", PyVal.str "normalized")] := by
  refine ⟨rfl, rfl, rfl⟩

/-- C7 amended: for every response or stimulus record that carries a truthy
source file and a truthy intra-file locator, the eager resolver emits exactly
one record; when the sample payload cannot be read the record still appears
with the zero-length placeholder data, with a per-node warning for response
records (stimulus read failures are silent); and such failures never abort
the enclosing epoch: `_build_epoch` still succeeds and emits exactly the
per-record results.  Records lacking the file or locator yield no record. -/
theorem c7_record_per_locator_node (read : PyVal → PyVal → EpicTreeExporter.H5Read)
    (rd : PyDict)
    (hf : pyTruthy (dictGetD rd "h5_file" PyVal.none) = true)
    (hp : pyTruthy (dictGetD rd "h5_path" PyVal.none) = true) :
    (EpicTreeExporter.extract_response_data read rd).2.isSome = true
    ∧ (EpicTreeExporter.extract_stimulus_data read rd).isSome = true
    ∧ (EpicTreeExporter.readFailed
          (read (dictGetD rd "h5_file" PyVal.none) (dictGetD rd "h5_path" PyVal.none)) = true →
        (EpicTreeExporter.extract_response_data read rd).2.map (fun r => dictGet r "data")
            = some (some (PyVal.list []))
          ∧ (EpicTreeExporter.extract_response_data read rd).1 ≠ [])
    ∧ (EpicTreeExporter.readFailed
          (read (dictGetD rd "h5_file" PyVal.none) (dictGetD rd "h5_path" PyVal.none)) = true →
        (EpicTreeExporter.extract_stimulus_data read rd).map (fun s => dictGet s "data")
            = some (some (PyVal.list [])))
    ∧ (∀ (getOpts : Int → Int → Except String (Option (List PyDict × List PyDict)))
         (node : EpicTreeExporter.ENode) (eid : Int) (rs ss : List PyDict),
        node.object ≠ some [] →
        getOpts node.id eid = Except.ok (some (rs, ss)) →
        (EpicTreeExporter.build_epoch read getOpts node eid false).map
            (fun p => (dictGet p.2 "responses", dictGet p.2 "stimuli"))
          = Except.ok
              (some (PyVal.list
                ((rs.filterMap fun x => (EpicTreeExporter.extract_response_data read x).2).map PyVal.dict)),
               some (PyVal.list
                ((ss.filterMap (EpicTreeExporter.extract_stimulus_data read)).map PyVal.dict)))) := by
  refine ⟨?_, ?_, ?_, ?_, ?_⟩
  · simp [EpicTreeExporter.extract_response_data, hf, hp]
  · simp [EpicTreeExporter.extract_stimulus_data, hf, hp]
  · intro hfail
    cases hout : read (dictGetD rd "h5_file" PyVal.none) (dictGetD rd "h5_path" PyVal.none) with
    | noFile =>
        constructor <;>
          simp [EpicTreeExporter.extract_response_data, hf, hp, hout, dictGet]
    | openError =>
        constructor <;>
          simp [EpicTreeExporter.extract_response_data, hf, hp, hout, dictGet]
    | noPath =>
        constructor <;>
          simp [EpicTreeExporter.extract_response_data, hf, hp, hout, dictGet]
    | found dg =>
        rw [hout] at hfail
        simp [EpicTreeExporter.readFailed] at hfail
  · intro hfail
    cases hout : read (dictGetD rd "h5_file" PyVal.none) (dictGetD rd "h5_path" PyVal.none) with
    | noFile =>
        simp [EpicTreeExporter.extract_stimulus_data, hf, hp, hout, dictGet]
    | openError =>
        simp [EpicTreeExporter.extract_stimulus_data, hf, hp, hout, dictGet]
    | noPath =>
        simp [EpicTreeExporter.extract_stimulus_data, hf, hp, hout, dictGet]
    | found dg =>
        rw [hout] at hfail
        simp [EpicTreeExporter.readFailed] at hfail
  · intro getOpts node eid rs ss hobj hopts
    match hno : node.object with
    | some [] => exact absurd hno hobj
    | Option.none =>
        unfold EpicTreeExporter.build_epoch
        rw [hno, hopts]
        simp [Except.map, dictGet_dictSet]
        rfl
    | some (d :: tl) =>
        unfold EpicTreeExporter.build_epoch
        rw [hno, hopts]
        simp [Except.map, dictGet_dictSet]
        rfl

/-- C7 witness: with a concrete failing read and a record that carries both
the file and the locator, the amended theorem's conclusions hold. -/
theorem c7_record_per_locator_node_witness :
    ((EpicTreeExporter.extract_response_data c7ReadFail
        [("h5_file", PyVal.str "a.h5"), ("h5_path", PyVal.str "/x"), ("label", PyVal.str "Amp1")]).2.isSome = true)
    ∧ ((EpicTreeExporter.extract_response_data c7ReadFail
        [("h5_file", PyVal.str "a.h5"), ("h5_path", PyVal.str "/x"), ("label", PyVal.str "Amp1")]).2.map
          (fun r => dictGet r "data") = some (some (PyVal.list []))) := by
  have h := c7_record_per_locator_node c7ReadFail
    [("h5_file", PyVal.str "a.h5"), ("h5_path", PyVal.str "/x"), ("label", PyVal.str "Amp1")]
    (by rfl) (by rfl)
  exact ⟨h.1, (h.2.2.1 (by rfl)).1⟩
